import Mathlib

/-!
Verification of the binary codec core of the `spacepackets` library.

The PUS telemetry codec (`PusTelemetry`, `PusTmSecondaryHeader`) is translated
from `src/spacepackets/ecss/tm.py`.  The modules that `tm.py` imports
(`spacepackets.ccsds.spacepacket`, `spacepackets.ccsds.time`,
`spacepackets.ecss.conf`, the `crcmod` CRC function) and the whole CFDP layer
are not part of the source tree, so those definitions are modelled from the
specification and marked as such in their doc comments.

Bytes are modelled as `Nat` values; `bytearray.append` range checking is
modelled explicitly (`append_byte`).  Python index access `raw[i]` is modelled
with `List.getD raw i 0`: on every path exercised below the source guards the
access with a length check, so the total default never influences a result.
Fallible operations return `Except Err`.
-/

namespace Spacepackets

/-- Failure kinds.  The Python source raises `ValueError` (or trips an
`AttributeError` / byte-range error); the constructors record the kind of
failure in the spec's error taxonomy together with the raise site. -/
inductive Err where
  /-- `PusTelemetry.unpack` given an empty byte stream. -/
  | emptyStream
  /-- An input buffer shorter than a minimum or length-field-indicated size. -/
  | bytesTooShort
  /-- A PUS version check failed. -/
  | invalidPusVersion
  /-- A field value exceeds its declared width (construction- or pack-time). -/
  | fieldOverflow
  /-- Access to an attribute that was never assigned (`pus_version_number`). -/
  | attributeError
  /-- `bytearray.append` with a value outside `0..255`. -/
  | byteOutOfRange
  deriving DecidableEq

/-- Python `bytearray.append`: accepts only values in `0..255`. -/
def append_byte (l : List Nat) (b : Nat) : Except Err (List Nat) :=
  if b < 256 then .ok (l ++ [b]) else .error .byteOutOfRange

/-- Python `bytearray.extend` with a list of ints: each must be in `0..255`. -/
def extend_bytes (l src : List Nat) : Except Err (List Nat) :=
  if src.all (fun b => b < 256) then .ok (l ++ src) else .error .byteOutOfRange

/-! ## Bit-twiddling toolkit -/

theorem and_shl_mask (x m k : Nat) : x &&& (m <<< k) = ((x >>> k) &&& m) <<< k := by
  apply Nat.eq_of_testBit_eq
  intro i
  simp only [Nat.testBit_and, Nat.testBit_shiftLeft, Nat.testBit_shiftRight]
  by_cases h : k ≤ i
  · have hik : k + (i - k) = i := by omega
    simp [h, hik, ge_iff_le]
  · simp [h, ge_iff_le]

theorem and_255 (x : Nat) : x &&& 255 = x % 256 := by
  have h := Nat.and_pow_two_sub_one_eq_mod x 8
  norm_num at h
  exact h

theorem shl_or_eq_add (a b k : Nat) (hb : b < 2 ^ k) : a <<< k ||| b = 2 ^ k * a + b := by
  apply Nat.eq_of_testBit_eq
  intro j
  rw [Nat.testBit_mul_pow_two_add a hb j]
  simp only [Nat.testBit_or, Nat.testBit_shiftLeft]
  by_cases h : k ≤ j
  · have hbj : b.testBit j = false :=
      Nat.testBit_lt_two_pow (lt_of_lt_of_le hb (Nat.pow_le_pow_right (by norm_num) h))
    simp [h, hbj, if_neg (by omega : ¬ j < k), ge_iff_le]
  · simp [h, if_pos (by omega : j < k), ge_iff_le]

theorem and_ff00 (x : Nat) : x &&& 65280 = x / 256 % 256 * 256 := by
  have h1 : (65280 : Nat) = 255 <<< 8 := by norm_num [Nat.shiftLeft_eq]
  rw [h1, and_shl_mask, and_255, Nat.shiftRight_eq_div_pow, Nat.shiftLeft_eq]

/-- Big-endian recombination of the two byte values the source produces with
`(x & 0xff00) >> 8` and `x & 0xff` gives back `x` for 16-bit `x`. -/
theorem be16_round_trip (x : Nat) (h : x < 65536) :
    (((x &&& 0xFF00) >>> 8) <<< 8) ||| (x &&& 0xFF) = x := by
  rw [and_ff00, and_255, Nat.shiftRight_eq_div_pow]
  norm_num
  rw [shl_or_eq_add _ _ 8 (by omega)]
  omega

theorem be16_hi_lt (x : Nat) : (x &&& 0xFF00) >>> 8 < 256 := by
  rw [and_ff00, Nat.shiftRight_eq_div_pow]
  norm_num
  omega

theorem be16_lo_lt (x : Nat) : x &&& 0xFF < 256 := by
  rw [and_255]; omega

/-! ## CRC-16/CCITT-FALSE

Modelled from the spec (§4.2): polynomial `0x1021`, initial value `0xFFFF`,
no reflection, no final XOR, MSB first.  The source obtains this function from
`crcmod.predefined.mkPredefinedCrcFun('crc-ccitt-false')`, which is not part
of the source tree.  One register shift multiplies the register by `x` in
`GF(2)[x]` modulo `0x11021`; feeding a byte XORs it into the high register
byte and performs eight shifts. -/

def crc_shift (r : Nat) : Nat :=
  if 32768 ≤ r then ((r * 2) ^^^ 4129) % 65536 else (r * 2) % 65536

def crc_shift8 (r : Nat) : Nat :=
  crc_shift (crc_shift (crc_shift (crc_shift (crc_shift (crc_shift (crc_shift (crc_shift r)))))))

/-- Feed one byte `b` into register `c`: XOR into the high register byte, then
eight polynomial shifts.  For `c < 65536` and `b < 256` this agrees with the
classical `crc ^= b << 8` formulation. -/
def crc16_step (c b : Nat) : Nat :=
  crc_shift8 ((c / 256 ^^^ b) % 256 * 256 + c % 256)

def crc16 (data : List Nat) : Nat := data.foldl crc16_step 65535

theorem crc_shift_lt (r : Nat) : crc_shift r < 65536 := by
  unfold crc_shift
  split <;> exact Nat.mod_lt _ (by norm_num)

theorem crc16_step_lt (c b : Nat) : crc16_step c b < 65536 := by
  unfold crc16_step crc_shift8
  exact crc_shift_lt _

theorem crc16_foldl_lt (data : List Nat) :
    ∀ init, init < 65536 → data.foldl crc16_step init < 65536 := by
  induction data with
  | nil => intro init h; simpa using h
  | cons a l ih =>
      intro init _
      rw [List.foldl_cons]
      exact ih _ (crc16_step_lt init a)

theorem crc16_lt (data : List Nat) : crc16 data < 65536 :=
  crc16_foldl_lt data 65535 (by norm_num)

set_option maxRecDepth 2000 in
theorem crc_shift8_byte : ∀ y, y < 256 → crc_shift8 y = y * 256 := by decide

/-- Feeding the two bytes the source emits with `(c & 0xff00) >> 8` and
`c & 0xff` into register `c` drives the register to zero. -/
theorem crc16_close_step (c : Nat) (hc : c < 65536) :
    crc16_step (crc16_step c ((c &&& 0xFF00) >>> 8)) (c &&& 0xFF) = 0 := by
  have hhi : (c &&& 0xFF00) >>> 8 = c / 256 := by
    rw [and_ff00, Nat.shiftRight_eq_div_pow]
    norm_num
    omega
  have hlo : c &&& 0xFF = c % 256 := and_255 c
  rw [hhi, hlo]
  have h1 : crc16_step c (c / 256) = c % 256 * 256 := by
    unfold crc16_step
    rw [Nat.xor_self]
    simp only [Nat.zero_mod, Nat.zero_mul, Nat.zero_add]
    exact crc_shift8_byte _ (Nat.mod_lt _ (by norm_num))
  rw [h1]
  unfold crc16_step
  rw [Nat.mul_div_cancel _ (by norm_num : 0 < 256), Nat.mul_mod_left, Nat.xor_self]
  rfl

theorem crc16_two_step (data : List Nat) (hi lo : Nat) :
    crc16 (data ++ [hi, lo]) = crc16_step (crc16_step (crc16 data) hi) lo := by
  unfold crc16
  simp only [List.foldl_append, List.foldl_cons, List.foldl_nil]

/-- Closure property: appending the register value big-endian (exactly the two
bytes `pack` emits) drives the register to zero. -/
theorem crc16_append_closes (data : List Nat) :
    crc16 (data ++ [(crc16 data &&& 0xFF00) >>> 8, crc16 data &&& 0xFF]) = 0 := by
  rw [crc16_two_step]
  exact crc16_close_step (crc16 data) (crc16_lt data)

/-! ## CCSDS Space Packet Header

Modelled from the spec (§4.1): `spacepackets.ccsds.spacepacket` is not part of
the source tree.  Byte layout (MSB first):
byte 0 `[version:3][type:1][sec_hdr_flag:1][apid_hi:3]`, byte 1 `apid_lo`,
byte 2 `[seq_flags:2][seq_count_hi:6]`, byte 3 `seq_count_lo`,
bytes 4-5 `data_length` big-endian.  `pack` raises `ValueError` when a field
exceeds its bit width; `unpack` raises `BytesTooShort` below 6 bytes. -/

def SPACE_PACKET_HEADER_SIZE : Nat := 6

structure SpacePacketHeader where
  packet_version : Nat
  packet_type : Nat
  secondary_header_flag : Bool
  apid : Nat
  sequence_flags : Nat
  ssc : Nat
  data_length : Nat
  deriving DecidableEq

/-- Modelled from the spec: `total_packet_len = data_length + 7` (§4.1). -/
def get_total_space_packet_len_from_len_field (len_field : Nat) : Nat :=
  len_field + 7

/-- Modelled from the spec: full packet size derived from the length field. -/
def SpacePacketHeader.get_packet_size (h : SpacePacketHeader) : Nat :=
  h.data_length + 7

/-- Modelled from the spec: 6-byte big-endian bit-packed encoding (§4.1). -/
def SpacePacketHeader.pack (h : SpacePacketHeader) : Except Err (List Nat) :=
  if h.packet_version < 8 ∧ h.packet_type < 2 ∧ h.apid < 2048 ∧
      h.sequence_flags < 4 ∧ h.ssc < 16384 ∧ h.data_length < 65536 then
    .ok [h.packet_version * 32 + h.packet_type * 16 +
           (if h.secondary_header_flag then 8 else 0) + h.apid / 256,
         h.apid % 256,
         h.sequence_flags * 64 + h.ssc / 256,
         h.ssc % 256,
         h.data_length / 256,
         h.data_length % 256]
  else .error .fieldOverflow

/-- Modelled from the spec: decode the 6-byte header (§4.1). -/
def SpacePacketHeader.unpack (space_packet_raw : List Nat) : Except Err SpacePacketHeader :=
  if space_packet_raw.length < 6 then .error .bytesTooShort
  else
    .ok { packet_version := space_packet_raw.getD 0 0 / 32
          packet_type := space_packet_raw.getD 0 0 / 16 % 2
          secondary_header_flag := space_packet_raw.getD 0 0 / 8 % 2 = 1
          apid := space_packet_raw.getD 0 0 % 8 * 256 + space_packet_raw.getD 1 0
          sequence_flags := space_packet_raw.getD 2 0 / 64
          ssc := space_packet_raw.getD 2 0 % 64 * 256 + space_packet_raw.getD 3 0
          data_length := space_packet_raw.getD 4 0 * 256 + space_packet_raw.getD 5 0 }

/-! ## CDS short timestamp

Modelled from the spec (§4.3): `spacepackets.ccsds.time` is not part of the
source tree.  Seven bytes on the wire: `[p_field:1][days:2 BE][ms_of_day:4 BE]`.
The claims under scrutiny never depend on the clock source, so timestamps are
always supplied explicitly. -/

structure CdsShortTimestamp where
  pfield : Nat
  ccsds_days : Nat
  ms_of_day : Nat
  deriving DecidableEq

/-- Modelled from the spec: 7-byte big-endian CDS short encoding (§4.3). -/
def CdsShortTimestamp.pack (t : CdsShortTimestamp) : List Nat :=
  [t.pfield % 256,
   t.ccsds_days / 256 % 256, t.ccsds_days % 256,
   t.ms_of_day / 16777216 % 256, t.ms_of_day / 65536 % 256,
   t.ms_of_day / 256 % 256, t.ms_of_day % 256]

/-- Modelled from the spec: decode a 7-byte CDS short time window (§4.3). -/
def CdsShortTimestamp.unpack (time_field : List Nat) : CdsShortTimestamp :=
  { pfield := time_field.getD 0 0
    ccsds_days := time_field.getD 1 0 * 256 + time_field.getD 2 0
    ms_of_day := time_field.getD 3 0 * 16777216 + time_field.getD 4 0 * 65536 +
                 time_field.getD 5 0 * 256 + time_field.getD 6 0 }

/-! ## PUS version -/

inductive PusVersion where
  | PUS_A
  | PUS_C
  | GLOBAL_CONFIG
  deriving DecidableEq

/-- Modelled from the spec: the numeric `IntEnum` value; the PUS C version
nibble on the wire is 2 (§3, §4.4). -/
def PusVersion.toNat : PusVersion → Nat
  | .PUS_A => 1
  | .PUS_C => 2
  | .GLOBAL_CONFIG => 98

/-- Modelled from the spec: the process-wide default PUS TM version; the
`GLOBAL_CONFIG` sentinel resolves to `PUS_C` when unset (§4.4). -/
def get_pus_tm_version : PusVersion := .PUS_C

def PusVersion.resolve : PusVersion → PusVersion
  | .GLOBAL_CONFIG => get_pus_tm_version
  | v => v

/-! ## PUS TM secondary header (translated from `tm.py`, class `PusTmSecondaryHeader`) -/

/-- `PusTmSecondaryHeader`.  The Python object carries one more attribute than
`__init__` assigns: `pus_version_number` is created only inside `unpack`, so it
is modelled as an `Option` that `init` leaves at `none`.  (`unpack` also stores
the parsed version nibble there.) -/
structure PusTmSecondaryHeader where
  pus_version : PusVersion
  service_id : Nat
  subservice_id : Nat
  message_counter : Nat
  destination_id : Nat
  spacecraft_time_ref : Nat
  time : CdsShortTimestamp
  pus_version_number : Option Nat
  deriving DecidableEq

def HEADER_SIZE_WITHOUT_TIME_PUS_A : Nat := 4
def HEADER_SIZE_WITHOUT_TIME_PUS_C : Nat := 7

/-- `PusTmSecondaryHeader.__init__` (tm.py lines 286-315).  Resolves the
`GLOBAL_CONFIG` sentinel, rejects unsupported versions, and rejects
`message_counter > 255` for PUS A respectively `> 65536` for PUS C (the
source's literal bound). -/
def PusTmSecondaryHeader.init (pus_version : PusVersion) (service_id subservice_id : Nat)
    (time : CdsShortTimestamp) (message_counter destination_id spacecraft_time_ref : Nat) :
    Except Err PusTmSecondaryHeader :=
  if pus_version.resolve ≠ PusVersion.PUS_A ∧ pus_version.resolve ≠ PusVersion.PUS_C then
    .error .invalidPusVersion
  else if (pus_version.resolve = PusVersion.PUS_A ∧ message_counter > 255) ∨
          (pus_version.resolve = PusVersion.PUS_C ∧ message_counter > 65536) then
    .error .fieldOverflow
  else .ok { pus_version := pus_version.resolve, service_id, subservice_id, message_counter,
             destination_id, spacecraft_time_ref, time, pus_version_number := none }

/-- `PusTmSecondaryHeader.get_header_size` (tm.py lines 414-418):
timestamp size 7 plus 4 for PUS A, otherwise plus 7. -/
def PusTmSecondaryHeader.get_header_size (h : PusTmSecondaryHeader) : Nat :=
  if h.pus_version = PusVersion.PUS_A then 7 + 4 else 7 + 7

/-- `PusTmSecondaryHeader.pack` (tm.py lines 327-343).  For PUS A the first
byte reads `self.pus_version_number`, which `__init__` never assigns
(`AttributeError` on a field-constructed header); for PUS C it is the version
enum value shifted into the high nibble ored with the spacecraft time
reference.  Every `bytearray.append` is range-checked. -/
def PusTmSecondaryHeader.pack (h : PusTmSecondaryHeader) : Except Err (List Nat) :=
  let first : Except Err (List Nat) :=
    if h.pus_version = PusVersion.PUS_A then
      match h.pus_version_number with
      | none => .error .attributeError
      | some vn => append_byte [] ((vn &&& 0x07) <<< 4)
    else if h.pus_version = PusVersion.PUS_C then
      append_byte [] (h.pus_version.toNat <<< 4 ||| h.spacecraft_time_ref)
    else .ok []
  match first with
  | .error e => .error e
  | .ok sh =>
  match append_byte sh h.service_id with
  | .error e => .error e
  | .ok sh =>
  match append_byte sh h.subservice_id with
  | .error e => .error e
  | .ok sh =>
  let counters : Except Err (List Nat) :=
    if h.pus_version = PusVersion.PUS_A then
      append_byte sh h.message_counter
    else if h.pus_version = PusVersion.PUS_C then
      match append_byte sh ((h.message_counter &&& 0xff00) >>> 8) with
      | .error e => .error e
      | .ok sh =>
      match append_byte sh (h.message_counter &&& 0xff) with
      | .error e => .error e
      | .ok sh =>
      match append_byte sh ((h.destination_id &&& 0xff00) >>> 8) with
      | .error e => .error e
      | .ok sh => append_byte sh (h.destination_id &&& 0xff)
    else .ok sh
  match counters with
  | .error e => .error e
  | .ok sh => .ok (sh ++ h.time.pack)

/-- `PusTmSecondaryHeader.unpack` (tm.py lines 345-412).  Under PUS A the
version field is read from three bits, `(b0 & 0x70) >> 4`, and only the value
1 is rejected.  Under PUS C the source assigns `pus_version = PUS_C` and then
compares that same attribute against `PUS_C`: the comparison can never fail,
so no version value is ever rejected on the PUS C path (the dead check is kept
below exactly as written).  The buffer length is checked against the header
size before the fixed fields are read. -/
def PusTmSecondaryHeader.unpack (header_start : List Nat) (pus_version : PusVersion) :
    Except Err PusTmSecondaryHeader :=
  if pus_version.resolve = PusVersion.PUS_A then
    if (header_start.getD 0 0 &&& 0x70) >>> 4 = 1 then .error .invalidPusVersion
    else if header_start.length < 7 + 4 then .error .bytesTooShort
    else .ok {
      pus_version := PusVersion.PUS_A
      pus_version_number := some ((header_start.getD 0 0 &&& 0x70) >>> 4)
      service_id := header_start.getD 1 0
      subservice_id := header_start.getD 2 0
      message_counter := header_start.getD 3 0
      destination_id := 0
      spacecraft_time_ref := 0
      time := CdsShortTimestamp.unpack ((header_start.drop 4).take 7) }
  else
    if PusVersion.PUS_C ≠ PusVersion.PUS_C then .error .invalidPusVersion
    else if header_start.length < 7 + 7 then .error .bytesTooShort
    else .ok {
      pus_version := PusVersion.PUS_C
      pus_version_number := some ((header_start.getD 0 0 &&& 0xF0) >>> 4)
      spacecraft_time_ref := header_start.getD 0 0 &&& 0x0F
      service_id := header_start.getD 1 0
      subservice_id := header_start.getD 2 0
      message_counter := header_start.getD 3 0 <<< 8 ||| header_start.getD 4 0
      destination_id := header_start.getD 5 0 <<< 8 ||| header_start.getD 6 0
      time := CdsShortTimestamp.unpack ((header_start.drop 7).take 7) }

/-! ## PUS telemetry (translated from `tm.py`, class `PusTelemetry`) -/

def PUS_TIMESTAMP_SIZE : Nat := 7

/-- `PusTelemetry`.  The flag `_valid` and the cached `_crc16` are part of the
object state; `__init__` sets them to `False` and `0`.  (`unpack` additionally
stores the extracted checksum in a `_crc` attribute that no other code reads;
that dead store is not modelled.) -/
structure PusTelemetry where
  space_packet_header : SpacePacketHeader
  secondary_packet_header : PusTmSecondaryHeader
  source_data : List Nat
  valid : Bool
  crc16_value : Nat
  deriving DecidableEq

/-- `PusTelemetry.get_source_data_length` (tm.py lines 194-221): the data
length field is the secondary header size without timestamp, plus timestamp
length, plus source data length, plus one. -/
def get_source_data_length (source_data_len timestamp_len : Nat) (pus_version : PusVersion) :
    Except Err Nat :=
  if pus_version = PusVersion.PUS_A then
    .ok (HEADER_SIZE_WITHOUT_TIME_PUS_A + timestamp_len + source_data_len + 1)
  else if pus_version = PusVersion.PUS_C then
    .ok (HEADER_SIZE_WITHOUT_TIME_PUS_C + timestamp_len + source_data_len + 1)
  else .error .invalidPusVersion

/-- `PusTelemetry.__init__` (tm.py lines 33-64).  The packet type is the
telemetry constant 0; the sequence flags default is the CCSDS unsegmented
value 3 (modelled from the spec glossary, `spacepacket.py` is not in the
source tree).  The timestamp and the APID are supplied explicitly, so the
clock and APID configuration collaborators are not needed. -/
def PusTelemetry.init (service_id subservice_id : Nat) (time : CdsShortTimestamp)
    (ssc : Nat) (source_data : List Nat) (apid message_counter space_time_ref
    destination_id packet_version : Nat) (pus_version : PusVersion)
    (secondary_header_flag : Bool) : Except Err PusTelemetry :=
  match get_source_data_length source_data.length PUS_TIMESTAMP_SIZE pus_version.resolve with
  | .error e => .error e
  | .ok data_length =>
  match PusTmSecondaryHeader.init pus_version.resolve service_id subservice_id time
      message_counter destination_id space_time_ref with
  | .error e => .error e
  | .ok sec =>
    .ok { space_packet_header :=
            { packet_version, packet_type := 0, secondary_header_flag, apid,
              sequence_flags := 3, ssc, data_length }
          secondary_packet_header := sec
          source_data
          valid := false
          crc16_value := 0 }

/-- `PusTelemetry.is_valid` (tm.py lines 165-166). -/
def PusTelemetry.is_valid (e : PusTelemetry) : Bool := e.valid

/-- `PusTelemetry.get_packet_size` (tm.py lines 243-249). -/
def PusTelemetry.get_packet_size (e : PusTelemetry) : Nat :=
  e.space_packet_header.get_packet_size

/-- `PusTelemetry.pack` (tm.py lines 72-87): space packet header, secondary
header, source data, then the CRC-16 over everything so far appended
big-endian.  The computed checksum is also stored back into `_crc16`. -/
def PusTelemetry.pack (e : PusTelemetry) : Except Err (List Nat × PusTelemetry) :=
  match e.space_packet_header.pack with
  | .error er => .error er
  | .ok sp =>
  match e.secondary_packet_header.pack with
  | .error er => .error er
  | .ok sec =>
  match extend_bytes (sp ++ sec) e.source_data with
  | .error er => .error er
  | .ok raw =>
    .ok (raw ++ [(Spacepackets.crc16 raw &&& 0xff00) >>> 8, Spacepackets.crc16 raw &&& 0xff],
         { e with crc16_value := Spacepackets.crc16 raw })

/-- `PusTelemetry.unpack` (tm.py lines 89-142) together with the private
`__perform_crc_check` (lines 177-192).  The source never raises on a CRC
mismatch: `unpack` discards the boolean result of `__perform_crc_check`, which
only decides the `_valid` flag.  A packet-size/buffer-length mismatch with a
longer buffer is only a logged warning, and the source data slice
`raw[header_end:-2]` is taken relative to the full buffer length. -/
def PusTelemetry.unpack (raw_telemetry : List Nat) (pus_version : PusVersion) :
    Except Err PusTelemetry :=
  if raw_telemetry.length = 0 then .error .emptyStream
  else
  match SpacePacketHeader.unpack raw_telemetry with
  | .error er => .error er
  | .ok sp =>
  if get_total_space_packet_len_from_len_field sp.data_length > raw_telemetry.length then
    .error .bytesTooShort
  else
  match PusTmSecondaryHeader.unpack (raw_telemetry.drop SPACE_PACKET_HEADER_SIZE)
      pus_version with
  | .error er => .error er
  | .ok sec =>
  if raw_telemetry.length - 2 < sec.get_header_size + SPACE_PACKET_HEADER_SIZE then
    .error .bytesTooShort
  else
    .ok { space_packet_header := sp
          secondary_packet_header := sec
          source_data := (raw_telemetry.take (raw_telemetry.length - 2)).drop
            (sec.get_header_size + SPACE_PACKET_HEADER_SIZE)
          valid := if raw_telemetry.length < sp.get_packet_size then false
                   else decide (Spacepackets.crc16 (raw_telemetry.take sp.get_packet_size) = 0)
          crc16_value := 0 }

/-- The expected packet length a buffer announces in its space packet header
length field (bytes 4 and 5), as the source computes it. -/
def expected_len_of (raw : List Nat) : Nat :=
  raw.getD 4 0 * 256 + raw.getD 5 0 + 7

/-! ## CFDP FinishedPdu

Modelled from the spec: the whole CFDP layer (`spacepackets.cfdp`) is not part
of the source tree; only its test is.  The PDU header follows §4.6 with CFDP
version 001 in the top three bits of byte 0; byte 3 carries the entity-id and
sequence-number octet counts directly, and the Finished parameter byte packs
`[condition:4][delivery:1][file_status:2]` from the high bits down with one
spare bit between delivery code and condition code, both pinned by the spec's
§8 sample bytes `20 00 02 11 00 00 00 05 03`. -/

structure PduConfig where
  source_entity_id : Nat
  dest_entity_id : Nat
  transaction_seq_num : Nat
  len_entity_id : Nat
  len_seq : Nat
  direction : Nat
  trans_mode : Nat
  crc_flag : Nat
  large_file_flag : Nat
  seg_ctrl : Nat
  seg_metadata_flag : Nat
  deriving DecidableEq

/-- Modelled from the spec (§8, S1): the default configuration has entity-id
and sequence-number widths 1, zero ids, and all flag bits cleared. -/
def PduConfig.empty : PduConfig :=
  { source_entity_id := 0, dest_entity_id := 0, transaction_seq_num := 0,
    len_entity_id := 1, len_seq := 1, direction := 0, trans_mode := 0,
    crc_flag := 0, large_file_flag := 0, seg_ctrl := 0, seg_metadata_flag := 0 }

/-- Big-endian encoding of `v` into `w` octets, most significant first. -/
def be_bytes : Nat → Nat → List Nat
  | 0, _ => []
  | w + 1, v => be_bytes w (v / 256) ++ [v % 256]

/-- Modelled from the spec (§4.6): fixed header bytes followed by source
entity id, transaction sequence number and destination entity id. -/
def pdu_header_pack (conf : PduConfig) (pdu_type pdu_data_length : Nat) : List Nat :=
  [32 + pdu_type * 16 + conf.direction * 8 + conf.trans_mode * 4 +
     conf.crc_flag * 2 + conf.large_file_flag,
   pdu_data_length / 256 % 256, pdu_data_length % 256,
   conf.seg_ctrl * 128 + conf.len_entity_id * 16 +
     conf.seg_metadata_flag * 8 + conf.len_seq] ++
  be_bytes conf.len_entity_id conf.source_entity_id ++
  be_bytes conf.len_seq conf.transaction_seq_num ++
  be_bytes conf.len_entity_id conf.dest_entity_id

/-- Modelled from the spec (§4.7.2): generic TLV, `[type][length][value]`. -/
structure CfdpTlv where
  tlv_type : Nat
  value : List Nat
  deriving DecidableEq

def CfdpTlv.pack (t : CfdpTlv) : List Nat :=
  [t.tlv_type % 256, t.value.length % 256] ++ t.value

/-- Modelled from the spec (§4.7.1, §9): delivery code, file delivery status
and condition code values pinned by the worked S1 scenario. -/
def DELIVERY_CODE_DATA_COMPLETE : Nat := 0

def FILE_STATUS_UNREPORTED : Nat := 3

def CONDITION_NO_ERROR : Nat := 0

/-- Modelled from the spec (§4.7.1): Finished PDU content. -/
structure FinishedPdu where
  pdu_conf : PduConfig
  delivery_code : Nat
  file_delivery_status : Nat
  condition_code : Nat
  file_store_responses : List CfdpTlv
  fault_location : Option CfdpTlv
  deriving DecidableEq

/-- Modelled from the spec (§4.6, §4.7.1): directive code 0x05, the packed
parameter byte, file store response TLVs, then the optional fault location
TLV; `pdu_data_length` counts the payload after the fixed header. -/
def FinishedPdu.pack (f : FinishedPdu) : List Nat :=
  let params : List Nat :=
    [f.condition_code % 16 * 16 + f.delivery_code % 2 * 4 + f.file_delivery_status % 4] ++
    (f.file_store_responses.map CfdpTlv.pack).flatten ++
    (match f.fault_location with
     | none => []
     | some t => t.pack)
  let data_field := [5] ++ params
  pdu_header_pack f.pdu_conf 0 data_field.length ++ data_field

def FinishedPdu.packet_len (f : FinishedPdu) : Nat :=
  f.pack.length

/-- The S1 Finished PDU: data complete, file status unreported, no error,
no TLVs, default configuration. -/
def finished_pdu_s1 : FinishedPdu :=
  { pdu_conf := PduConfig.empty
    delivery_code := DELIVERY_CODE_DATA_COMPLETE
    file_delivery_status := FILE_STATUS_UNREPORTED
    condition_code := CONDITION_NO_ERROR
    file_store_responses := []
    fault_location := none }

/-- C8: packing an empty FinishedPdu with delivery code DATA_COMPLETE, file
delivery status FILE_STATUS_UNREPORTED, condition code NO_ERROR and the
default PduConfig produces exactly the nine bytes
`20 00 02 11 00 00 00 05 03`, and the entity's packet length equals 9. -/
theorem claim_C8_finished_pdu_bytes :
    finished_pdu_s1.pack = [0x20, 0x00, 0x02, 0x11, 0x00, 0x00, 0x00, 0x05, 0x03] ∧
    finished_pdu_s1.packet_len = 9 := by
  constructor <;> rfl

/-! ## Claim theorems for the PUS telemetry codec -/

/-- C2: the CRC-16/CCITT-FALSE checksum computed over the complete byte
sequence produced by `pack` (including the two trailing big-endian CRC bytes)
equals 0, for every `PusTelemetry` entity whose `pack` produces bytes. -/
theorem claim_C2_pack_crc_closes (e : PusTelemetry) (out : List Nat × PusTelemetry)
    (h : e.pack = .ok out) : crc16 out.1 = 0 := by
  unfold PusTelemetry.pack at h
  split at h
  · exact absurd h (by simp)
  · split at h
    · exact absurd h (by simp)
    · split at h
      · exact absurd h (by simp)
      · rename_i raw heq
        injection h with h1
        subst h1
        exact crc16_append_closes raw

/-- A concrete ping-reply entity used to witness C2. -/
def c2_entity : PusTelemetry :=
  { space_packet_header :=
      { packet_version := 0, packet_type := 0, secondary_header_flag := true,
        apid := 0xEF, sequence_flags := 3, ssc := 22, data_length := 15 }
    secondary_packet_header :=
      { pus_version := PusVersion.PUS_C, service_id := 17, subservice_id := 2,
        message_counter := 0, destination_id := 0, spacecraft_time_ref := 0,
        time := { pfield := 64, ccsds_days := 0, ms_of_day := 0 },
        pus_version_number := none }
    source_data := [], valid := false, crc16_value := 0 }

set_option maxRecDepth 4000 in
/-- C2 witness: the packed concrete ping reply closes to CRC 0. -/
theorem claim_C2_witness :
    crc16 [8, 239, 192, 22, 0, 15, 32, 17, 2, 0, 0, 0, 0, 64, 0, 0, 0, 0, 0, 0,
           248, 38] = 0 :=
  claim_C2_pack_crc_closes c2_entity
    ([8, 239, 192, 22, 0, 15, 32, 17, 2, 0, 0, 0, 0, 64, 0, 0, 0, 0, 0, 0,
      248, 38], { c2_entity with crc16_value := 63526 }) (by rfl)

/-- C6: when the buffer holds a full 6-byte space packet header but is
shorter than the announced total length `data_length + 7`, `unpack` fails
with the bytes-too-short error. -/
theorem claim_C6_unpack_too_short (raw : List Nat) (v : PusVersion)
    (h6 : 6 ≤ raw.length) (hshort : raw.length < expected_len_of raw) :
    PusTelemetry.unpack raw v = .error .bytesTooShort := by
  have hsp : SpacePacketHeader.unpack raw = .ok
      { packet_version := raw.getD 0 0 / 32
        packet_type := raw.getD 0 0 / 16 % 2
        secondary_header_flag := raw.getD 0 0 / 8 % 2 = 1
        apid := raw.getD 0 0 % 8 * 256 + raw.getD 1 0
        sequence_flags := raw.getD 2 0 / 64
        ssc := raw.getD 2 0 % 64 * 256 + raw.getD 3 0
        data_length := raw.getD 4 0 * 256 + raw.getD 5 0 } := by
    unfold SpacePacketHeader.unpack
    rw [if_neg (by omega)]
  unfold PusTelemetry.unpack
  rw [if_neg (by omega : ¬ raw.length = 0), hsp]
  have hgt : get_total_space_packet_len_from_len_field
      (raw.getD 4 0 * 256 + raw.getD 5 0) > raw.length := by
    unfold expected_len_of at hshort
    unfold get_total_space_packet_len_from_len_field
    omega
  simp only [if_pos hgt]

/-- C6 witness: a 20-byte buffer whose length field reads 0xFFFF fails
bytes-too-short, for both explicitly supplied PUS versions. -/
theorem claim_C6_witness :
    PusTelemetry.unpack
      [8, 239, 192, 22, 255, 255, 32, 17, 2, 0, 0, 0, 0, 64, 0, 0, 0, 0, 0, 0]
      PusVersion.PUS_C = .error .bytesTooShort :=
  claim_C6_unpack_too_short _ _ (by norm_num) (by norm_num [expected_len_of])

/-- C10: a field-constructed `PusTelemetry` has `is_valid = False`; `pack`
never changes the validity flag (so it stays `False` after any number of
packs); and an entity produced by `unpack` is valid exactly when the CRC
check over the expected-length prefix yielded 0. -/
theorem claim_C10_validity_flag :
    (∀ service subservice time ssc src apid mc tr dest pv pver shf e,
        PusTelemetry.init service subservice time ssc src apid mc tr dest pv
          pver shf = .ok e →
        e.is_valid = false) ∧
    (∀ e : PusTelemetry, ∀ out, e.pack = .ok out → out.2.is_valid = e.is_valid) ∧
    (∀ raw v e, PusTelemetry.unpack raw v = .ok e →
        (e.is_valid = true ↔
          crc16 (raw.take e.space_packet_header.get_packet_size) = 0)) := by
  refine ⟨?_, ?_, ?_⟩
  · intro service subservice time ssc src apid mc tr dest pv pver shf e h
    unfold PusTelemetry.init at h
    split at h
    · exact absurd h (by simp)
    · split at h
      · exact absurd h (by simp)
      · injection h with h1
        subst h1
        rfl
  · intro e out h
    unfold PusTelemetry.pack at h
    split at h
    · exact absurd h (by simp)
    · split at h
      · exact absurd h (by simp)
      · split at h
        · exact absurd h (by simp)
        · injection h with h1
          subst h1
          rfl
  · intro raw v e h
    unfold PusTelemetry.unpack at h
    split at h
    · exact absurd h (by simp)
    · split at h
      · exact absurd h (by simp)
      · rename_i sp hsp
        split at h
        · exact absurd h (by simp)
        · rename_i hlen
          split at h
          · exact absurd h (by simp)
          · rename_i sec hsec
            split at h
            · exact absurd h (by simp)
            · injection h with h1
              subst h1
              have hnotshort : ¬ raw.length < sp.get_packet_size := by
                unfold get_total_space_packet_len_from_len_field at hlen
                unfold SpacePacketHeader.get_packet_size
                omega
              simp only [PusTelemetry.is_valid, if_neg hnotshort, decide_eq_true_eq]

/-- The entity state after packing the concrete ping reply. -/
def c10_packed_entity : PusTelemetry :=
  { c2_entity with crc16_value := 63526 }

/-- The concrete valid packet bytes for the C10 witness. -/
def c10_packet : List Nat :=
  [8, 239, 192, 22, 0, 15, 32, 17, 2, 0, 0, 0, 0, 64, 0, 0, 0, 0, 0, 0, 248, 38]

/-- The entity `unpack` produces from `c10_packet`. -/
def c10_unpacked : PusTelemetry :=
  { space_packet_header :=
      { packet_version := 0, packet_type := 0, secondary_header_flag := true,
        apid := 239, sequence_flags := 3, ssc := 22, data_length := 15 }
    secondary_packet_header :=
      { pus_version := PusVersion.PUS_C, service_id := 17, subservice_id := 2,
        message_counter := 0, destination_id := 0, spacecraft_time_ref := 0,
        time := { pfield := 64, ccsds_days := 0, ms_of_day := 0 },
        pus_version_number := some 2 }
    source_data := [], valid := true, crc16_value := 0 }

set_option maxRecDepth 4000 in
/-- C10 witness: the three parts of the validity-flag theorem applied at
concrete inputs. -/
theorem claim_C10_witness :
    c2_entity.is_valid = false ∧
    c10_packed_entity.is_valid = c2_entity.is_valid ∧
    (c10_unpacked.is_valid = true ↔
      crc16 (c10_packet.take c10_unpacked.space_packet_header.get_packet_size) = 0) :=
  ⟨claim_C10_validity_flag.1 17 2 { pfield := 64, ccsds_days := 0, ms_of_day := 0 }
      22 [] 0xEF 0 0 0 0 PusVersion.PUS_C true c2_entity (by rfl),
   claim_C10_validity_flag.2.1 c2_entity (c10_packet, c10_packed_entity) (by rfl),
   claim_C10_validity_flag.2.2 c10_packet PusVersion.PUS_C c10_unpacked (by rfl)⟩

/-- C3 (amended): `unpack` does not raise on a CRC mismatch.  Whenever the
structural checks pass and the CRC-16 over the expected-length prefix is
nonzero, `unpack` returns an entity whose validity flag is `False`; the
source discards the boolean result of its CRC check. -/
theorem claim_C3_crc_mismatch_no_error (raw : List Nat) (v : PusVersion)
    (e : PusTelemetry) (h : PusTelemetry.unpack raw v = .ok e)
    (hcrc : crc16 (raw.take (expected_len_of raw)) ≠ 0) :
    e.is_valid = false := by
  unfold PusTelemetry.unpack at h
  split at h
  · exact absurd h (by simp)
  · split at h
    · exact absurd h (by simp)
    · rename_i sp hsp
      split at h
      · exact absurd h (by simp)
      · rename_i hexp
        split at h
        · exact absurd h (by simp)
        · rename_i sec hsec
          split at h
          · exact absurd h (by simp)
          · rename_i hlen2
            injection h with h1
            subst h1
            have h6 : ¬ raw.length < 6 := by
              intro hlt
              unfold SpacePacketHeader.unpack at hsp
              rw [if_pos hlt] at hsp
              exact absurd hsp (by simp)
            unfold SpacePacketHeader.unpack at hsp
            rw [if_neg h6] at hsp
            injection hsp with h2
            have hdl : sp.data_length = raw.getD 4 0 * 256 + raw.getD 5 0 := by
              rw [← h2]
            have hsize : sp.get_packet_size = expected_len_of raw := by
              unfold SpacePacketHeader.get_packet_size expected_len_of
              omega
            have hns : ¬ raw.length < sp.get_packet_size := by
              unfold get_total_space_packet_len_from_len_field at hexp
              unfold SpacePacketHeader.get_packet_size
              omega
            simp only [PusTelemetry.is_valid, hsize, if_neg (hsize ▸ hns)]
            simp [hcrc]

/-- The corrupted concrete packet: the valid ping reply with its final CRC
byte flipped from 38 to 39. -/
def c3_packet : List Nat :=
  [8, 239, 192, 22, 0, 15, 32, 17, 2, 0, 0, 0, 0, 64, 0, 0, 0, 0, 0, 0, 248, 39]

/-- The entity `unpack` returns for the corrupted packet. -/
def c3_entity : PusTelemetry :=
  { space_packet_header :=
      { packet_version := 0, packet_type := 0, secondary_header_flag := true,
        apid := 239, sequence_flags := 3, ssc := 22, data_length := 15 }
    secondary_packet_header :=
      { pus_version := PusVersion.PUS_C, service_id := 17, subservice_id := 2,
        message_counter := 0, destination_id := 0, spacecraft_time_ref := 0,
        time := { pfield := 64, ccsds_days := 0, ms_of_day := 0 },
        pus_version_number := some 2 }
    source_data := [], valid := false, crc16_value := 0 }

set_option maxRecDepth 4000 in
/-- C3 counterexample: a buffer at least as long as its expected length whose
CRC over the expected prefix is nonzero, on which `unpack` nevertheless
succeeds (no InvalidTmCrc16 failure), refuting the claim as stated. -/
theorem claim_C3_counterexample :
    PusTelemetry.unpack c3_packet PusVersion.PUS_C = .ok c3_entity ∧
    expected_len_of c3_packet ≤ c3_packet.length ∧
    crc16 (c3_packet.take (expected_len_of c3_packet)) ≠ 0 := by
  refine ⟨by rfl, by norm_num [c3_packet, expected_len_of], by decide⟩

set_option maxRecDepth 4000 in
/-- C3 witness: the amended theorem applied to the corrupted packet. -/
theorem claim_C3_witness : c3_entity.is_valid = false :=
  claim_C3_crc_mismatch_no_error c3_packet PusVersion.PUS_C c3_entity (by rfl) (by decide)

/-- A secondary header buffer whose version nibble is 3 (neither 0 nor 2). -/
def c4_header : List Nat := [0x30, 17, 2, 0, 0, 0, 0, 64, 0, 0, 0, 0, 0, 0]

/-- C4: evaluating the code at the failing input.  A version nibble of 3 is
rejected under neither PUS C nor PUS A unpacking: the PUS C branch compares
the just-assigned enum with itself (a check that can never fail) and the
PUS A branch only rejects the three-bit value 1, so both decode successfully
where the claim demands an InvalidPusVersion failure. -/
theorem claim_C4_bad_nibble_accepted :
    PusTmSecondaryHeader.unpack c4_header PusVersion.PUS_C = .ok
      { pus_version := PusVersion.PUS_C, pus_version_number := some 3,
        service_id := 17, subservice_id := 2, message_counter := 0,
        destination_id := 0, spacecraft_time_ref := 0,
        time := { pfield := 64, ccsds_days := 0, ms_of_day := 0 } } ∧
    PusTmSecondaryHeader.unpack c4_header PusVersion.PUS_A = .ok
      { pus_version := PusVersion.PUS_A, pus_version_number := some 3,
        service_id := 17, subservice_id := 2, message_counter := 0,
        destination_id := 0, spacecraft_time_ref := 0,
        time := { pfield := 0, ccsds_days := 0, ms_of_day := 1073741824 } } := by
  constructor <;> rfl

/-- A zero timestamp shared by the constructor evaluations below. -/
def t0 : CdsShortTimestamp := { pfield := 64, ccsds_days := 0, ms_of_day := 0 }

/-- C7: evaluating the code at the failing input.  The PUS C constructor
bound is the literal `message_counter > 65536`, an off-by-one against the
16-bit width: the value 65536 (greater than 0xFFFF) is accepted, while 65537
is rejected; the PUS A bound 255 behaves as claimed. -/
theorem claim_C7_message_counter_off_by_one :
    PusTmSecondaryHeader.init PusVersion.PUS_C 0 0 t0 65536 0 0 = .ok
      { pus_version := PusVersion.PUS_C, service_id := 0, subservice_id := 0,
        message_counter := 65536, destination_id := 0, spacecraft_time_ref := 0,
        time := t0, pus_version_number := none } ∧
    PusTmSecondaryHeader.init PusVersion.PUS_C 0 0 t0 65537 0 0 =
      .error .fieldOverflow ∧
    PusTmSecondaryHeader.init PusVersion.PUS_A 0 0 t0 255 0 0 = .ok
      { pus_version := PusVersion.PUS_A, service_id := 0, subservice_id := 0,
        message_counter := 255, destination_id := 0, spacecraft_time_ref := 0,
        time := t0, pus_version_number := none } ∧
    PusTmSecondaryHeader.init PusVersion.PUS_A 0 0 t0 256 0 0 =
      .error .fieldOverflow := by
  refine ⟨rfl, rfl, rfl, rfl⟩

/-- C9: evaluating the code at the failing input.  A PUS A secondary header
constructed from fields packs by reading `self.pus_version_number`, an
attribute `__init__` never assigns, so `pack` fails with an attribute error
instead of emitting a first byte of 0. -/
theorem claim_C9_pus_a_pack_attribute_error :
    PusTmSecondaryHeader.init PusVersion.PUS_A 17 2 t0 0 0 0 = .ok
      { pus_version := PusVersion.PUS_A, service_id := 17, subservice_id := 2,
        message_counter := 0, destination_id := 0, spacecraft_time_ref := 0,
        time := t0, pus_version_number := none } ∧
    PusTmSecondaryHeader.pack
      { pus_version := PusVersion.PUS_A, service_id := 17, subservice_id := 2,
        message_counter := 0, destination_id := 0, spacecraft_time_ref := 0,
        time := t0, pus_version_number := none } = .error .attributeError := by
  constructor <;> rfl

/-- The space packet header decode reads only the first six bytes, so it is
stable under appending a suffix once those six bytes exist. -/
theorem sp_unpack_append (raw suffix : List Nat) (h6 : 6 ≤ raw.length) :
    SpacePacketHeader.unpack (raw ++ suffix) = SpacePacketHeader.unpack raw := by
  have g : ∀ i, i < 6 → (raw ++ suffix).getD i 0 = raw.getD i 0 := by
    intro i hi
    exact List.getD_append _ _ _ _ (by omega)
  unfold SpacePacketHeader.unpack
  rw [if_neg (by rw [List.length_append]; omega), if_neg (by omega),
      g 0 (by omega), g 1 (by omega), g 2 (by omega), g 3 (by omega),
      g 4 (by omega), g 5 (by omega)]

/-- The secondary header decode reads only the bytes below its own header
size, so a successful decode is stable under appending a suffix. -/
theorem sec_unpack_append (hs suffix : List Nat) (v : PusVersion)
    (sec : PusTmSecondaryHeader) (h : PusTmSecondaryHeader.unpack hs v = .ok sec) :
    PusTmSecondaryHeader.unpack (hs ++ suffix) v = .ok sec := by
  unfold PusTmSecondaryHeader.unpack at h ⊢
  by_cases hv : v.resolve = PusVersion.PUS_A
  · rw [if_pos hv] at h ⊢
    split at h
    · exact absurd h (by simp)
    · rename_i hvn
      split at h
      · exact absurd h (by simp)
      · rename_i hlen
        have g : ∀ i, i < 11 → (hs ++ suffix).getD i 0 = hs.getD i 0 := by
          intro i hi
          exact List.getD_append _ _ _ _ (by omega)
        have gtime : ((hs ++ suffix).drop 4).take 7 = (hs.drop 4).take 7 := by
          rw [List.drop_append_of_le_length (by omega),
              List.take_append_of_le_length (by rw [List.length_drop]; omega)]
        rw [g 0 (by omega), if_neg hvn,
            if_neg (by rw [List.length_append]; omega),
            g 1 (by omega), g 2 (by omega), g 3 (by omega), gtime]
        exact h
  · rw [if_neg hv] at h ⊢
    rw [if_neg (by simp)] at h ⊢
    split at h
    · exact absurd h (by simp)
    · rename_i hlen
      have g : ∀ i, i < 14 → (hs ++ suffix).getD i 0 = hs.getD i 0 := by
        intro i hi
        exact List.getD_append _ _ _ _ (by omega)
      have gtime : ((hs ++ suffix).drop 7).take 7 = (hs.drop 7).take 7 := by
        rw [List.drop_append_of_le_length (by omega),
            List.take_append_of_le_length (by rw [List.length_drop]; omega)]
      rw [if_neg (by rw [List.length_append]; omega),
          g 0 (by omega), g 1 (by omega), g 2 (by omega), g 3 (by omega),
          g 4 (by omega), g 5 (by omega), g 6 (by omega), gtime]
      exact h

/-- Slicing `raw[m:-2]` after appending a suffix keeps the original slice as
a prefix and appends the bytes sitting between the old and the new cut. -/
theorem slice_append_decompose (A B : List Nat) (m : Nat)
    (hm : m + 2 ≤ A.length) :
    ((A ++ B).take (A.length + B.length - 2)).drop m =
      (A.take (A.length - 2)).drop m ++
      ((A ++ B).take (A.length + B.length - 2)).drop (A.length - 2) := by
  have hTlen : ((A ++ B).take (A.length + B.length - 2)).length =
      A.length + B.length - 2 := by
    rw [List.length_take, List.length_append]
    omega
  have hhead : ((A ++ B).take (A.length + B.length - 2)).take (A.length - 2) =
      A.take (A.length - 2) := by
    rw [List.take_take, min_eq_left (by omega), List.take_append_of_le_length (by omega)]
  conv_lhs =>
    rw [← List.take_append_drop (A.length - 2) ((A ++ B).take (A.length + B.length - 2))]
  rw [List.drop_append_of_le_length (by rw [List.length_take, hTlen]; omega)]
  rw [hhead]

/-- C5 (amended): appending a suffix to a successfully decoded buffer leaves
`unpack` successful and preserves every semantic field except `source_data`:
because the source slices `raw[header_end:-2]` relative to the full buffer,
the decoded source data grows by exactly `suffix.length` bytes (the bytes
between the old cut `raw.length - 2` and the new cut). -/
theorem claim_C5_trailing_bytes (raw suffix : List Nat) (v : PusVersion)
    (e : PusTelemetry) (h : PusTelemetry.unpack raw v = .ok e) :
    PusTelemetry.unpack (raw ++ suffix) v = .ok
      { space_packet_header := e.space_packet_header
        secondary_packet_header := e.secondary_packet_header
        source_data := e.source_data ++
          ((raw ++ suffix).take (raw.length + suffix.length - 2)).drop (raw.length - 2)
        valid := e.valid
        crc16_value := 0 } ∧
    (((raw ++ suffix).take (raw.length + suffix.length - 2)).drop
        (raw.length - 2)).length = suffix.length := by
  unfold PusTelemetry.unpack at h
  split at h
  · exact absurd h (by simp)
  · rename_i h0
    split at h
    · exact absurd h (by simp)
    · rename_i sp hsp
      split at h
      · exact absurd h (by simp)
      · rename_i hexp
        split at h
        · exact absurd h (by simp)
        · rename_i sec hsec
          split at h
          · exact absurd h (by simp)
          · rename_i hlen2
            injection h with h1
            subst h1
            have h6 : 6 ≤ raw.length := by
              by_contra hlt
              unfold SpacePacketHeader.unpack at hsp
              rw [if_pos (by omega)] at hsp
              exact absurd hsp (by simp)
            unfold get_total_space_packet_len_from_len_field at hexp
            simp only [SPACE_PACKET_HEADER_SIZE] at hsec hlen2 ⊢
            have hexp' : sp.data_length + 7 ≤ raw.length := by omega
            have hlen2' : sec.get_header_size + 6 ≤ raw.length - 2 := by omega
            have hlen8 : 8 ≤ raw.length := by omega
            refine ⟨?_, ?_⟩
            · unfold PusTelemetry.unpack
              rw [sp_unpack_append raw suffix h6, hsp]
              have hdropapp : (raw ++ suffix).drop 6 = raw.drop 6 ++ suffix :=
                List.drop_append_of_le_length h6
              simp only [SPACE_PACKET_HEADER_SIZE, hdropapp,
                sec_unpack_append (raw.drop 6) suffix v sec hsec]
              have c1 : ¬ ((raw ++ suffix).length = 0) := by
                rw [List.length_append]; omega
              have c2 : ¬ (get_total_space_packet_len_from_len_field sp.data_length >
                  (raw ++ suffix).length) := by
                unfold get_total_space_packet_len_from_len_field
                rw [List.length_append]; omega
              have c3 : ¬ ((raw ++ suffix).length - 2 < sec.get_header_size + 6) := by
                rw [List.length_append]; omega
              rw [if_neg c1, if_neg c2, if_neg c3]
              have hsize : sp.get_packet_size = sp.data_length + 7 := rfl
              have c4 : ¬ ((raw ++ suffix).length < sp.get_packet_size) := by
                rw [List.length_append, hsize]; omega
              have c4' : ¬ (raw.length < sp.get_packet_size) := by
                rw [hsize]; omega
              have htake : (raw ++ suffix).take sp.get_packet_size =
                  raw.take sp.get_packet_size :=
                List.take_append_of_le_length (by rw [hsize]; omega)
              have hsrc : ((raw ++ suffix).take ((raw ++ suffix).length - 2)).drop
                    (sec.get_header_size + 6) =
                  (raw.take (raw.length - 2)).drop (sec.get_header_size + 6) ++
                  ((raw ++ suffix).take (raw.length + suffix.length - 2)).drop
                    (raw.length - 2) := by
                rw [List.length_append]
                exact slice_append_decompose raw suffix _ (by omega)
              have hvalid : (if (raw ++ suffix).length < sp.get_packet_size then false
                    else decide (crc16 ((raw ++ suffix).take sp.get_packet_size) = 0)) =
                  (if raw.length < sp.get_packet_size then false
                    else decide (crc16 (raw.take sp.get_packet_size) = 0)) := by
                rw [if_neg c4, if_neg c4', htake]
              rw [hsrc, hvalid]
            · rw [List.length_drop, List.length_take, List.length_append]
              omega

/-- A valid 24-byte packed PUS C packet with source data `[66, 56]`. -/
def c5_packet : List Nat :=
  [8, 34, 192, 22, 0, 17, 32, 17, 2, 0, 0, 0, 0, 64, 0, 0, 0, 0, 0, 0, 66, 56, 169, 197]

/-- The entity `unpack` produces from `c5_packet`. -/
def c5_base : PusTelemetry :=
  { space_packet_header :=
      { packet_version := 0, packet_type := 0, secondary_header_flag := true,
        apid := 34, sequence_flags := 3, ssc := 22, data_length := 17 }
    secondary_packet_header :=
      { pus_version := PusVersion.PUS_C, service_id := 17, subservice_id := 2,
        message_counter := 0, destination_id := 0, spacecraft_time_ref := 0,
        time := { pfield := 64, ccsds_days := 0, ms_of_day := 0 },
        pus_version_number := some 2 }
    source_data := [66, 56], valid := true, crc16_value := 0 }

/-- The entity `unpack` produces from `c5_packet ++ [0]`: the source data has
absorbed the packet's first CRC byte. -/
def c5_appended : PusTelemetry :=
  { c5_base with source_data := [66, 56, 169] }

set_option maxRecDepth 4000 in
/-- C5 counterexample: appending one trailing byte to a valid packet leaves
`unpack` successful, but the decoded `source_data` differs from that of the
exact packet, refuting the claimed equality on all semantic fields. -/
theorem claim_C5_counterexample :
    PusTelemetry.unpack c5_packet PusVersion.PUS_C = .ok c5_base ∧
    PusTelemetry.unpack (c5_packet ++ [0]) PusVersion.PUS_C = .ok c5_appended ∧
    c5_appended.source_data ≠ c5_base.source_data := by
  refine ⟨by rfl, by rfl, by decide⟩

set_option maxRecDepth 4000 in
/-- C5 witness: the amended theorem applied to the concrete packet and the
one-byte suffix. -/
theorem claim_C5_witness :
    PusTelemetry.unpack (c5_packet ++ [0]) PusVersion.PUS_C = .ok
      { space_packet_header := c5_base.space_packet_header
        secondary_packet_header := c5_base.secondary_packet_header
        source_data := c5_base.source_data ++
          ((c5_packet ++ [0]).take (c5_packet.length + [0].length - 2)).drop
            (c5_packet.length - 2)
        valid := c5_base.valid
        crc16_value := 0 } ∧
    (((c5_packet ++ [0]).take (c5_packet.length + [0].length - 2)).drop
        (c5_packet.length - 2)).length = [0].length :=
  claim_C5_trailing_bytes c5_packet [0] PusVersion.PUS_C c5_base (by rfl)

theorem sec_pack_c (service subservice mc dest tr : Nat) (t : CdsShortTimestamp)
    (hs : service < 256) (hsub : subservice < 256) (htr : tr ≤ 15) :
    PusTmSecondaryHeader.pack
      { pus_version := PusVersion.PUS_C, service_id := service,
        subservice_id := subservice, message_counter := mc, destination_id := dest,
        spacecraft_time_ref := tr, time := t, pus_version_number := none } =
    .ok ([32 ||| tr, service, subservice, (mc &&& 0xff00) >>> 8, mc &&& 0xff, (dest &&& 0xff00) >>> 8, dest &&& 0xff] ++ t.pack) := by
  have h0 : 32 ||| tr < 256 := by
    have h32 : (32 : Nat) < 2 ^ 8 := by norm_num
    have htr' : tr < 2 ^ 8 := by omega
    have h := Nat.or_lt_two_pow h32 htr'
    norm_num at h
    exact h
  have hCA : PusVersion.PUS_C ≠ PusVersion.PUS_A := by decide
  have h24 : (2 : Nat) <<< 4 = 32 := rfl
  unfold PusTmSecondaryHeader.pack append_byte
  norm_num [PusVersion.toNat, h24, hCA, h0, hs, hsub, be16_hi_lt, be16_lo_lt]

theorem byte0_c_fields : ∀ tr, tr < 16 →
    ((32 ||| tr) &&& 0xF0) >>> 4 = 2 ∧ (32 ||| tr) &&& 0x0F = tr := by decide

theorem cds_round_trip (t : CdsShortTimestamp) (hp : t.pfield < 256)
    (hd : t.ccsds_days < 65536) (hm : t.ms_of_day < 4294967296) :
    CdsShortTimestamp.unpack t.pack = t := by
  unfold CdsShortTimestamp.unpack CdsShortTimestamp.pack
  cases t with
  | mk p d m =>
    simp only [List.getD_cons_zero, List.getD_cons_succ]
    congr 1 <;> dsimp only at hp hd hm ⊢ <;> omega

theorem sec_unpack_round (service subservice mc dest tr : Nat) (t : CdsShortTimestamp)
    (rest : List Nat) (hmc : mc < 65536) (hdest : dest < 65536) (htr : tr < 16)
    (hp : t.pfield < 256) (hd : t.ccsds_days < 65536) (hm : t.ms_of_day < 4294967296) :
    PusTmSecondaryHeader.unpack
      (([32 ||| tr, service, subservice, (mc &&& 0xff00) >>> 8, mc &&& 0xff, (dest &&& 0xff00) >>> 8, dest &&& 0xff] ++ t.pack) ++ rest)
      PusVersion.PUS_C = .ok
      { pus_version := PusVersion.PUS_C, pus_version_number := some 2,
        spacecraft_time_ref := tr, service_id := service, subservice_id := subservice,
        message_counter := mc, destination_id := dest, time := t } := by
  have hb0 := byte0_c_fields tr htr
  have htlen : t.pack.length = 7 := rfl
  unfold PusTmSecondaryHeader.unpack
  rw [if_neg (by decide), if_neg (by decide)]
  rw [if_neg (by
    simp only [List.length_append, List.length_cons, List.length_nil, htlen]
    omega)]
  simp only [List.cons_append, List.nil_append, List.getD_cons_zero, List.getD_cons_succ,
    List.drop_succ_cons, List.drop_zero]
  rw [Except.ok.injEq, PusTmSecondaryHeader.mk.injEq]
  refine ⟨rfl, rfl, rfl, ?_, ?_, ?_, ?_, ?_⟩
  · exact be16_round_trip mc hmc
  · exact be16_round_trip dest hdest
  · exact hb0.2
  · rw [List.take_append_of_le_length (by omega),
        List.take_of_length_le (by omega : t.pack.length ≤ 7)]
    exact cds_round_trip t hp hd hm
  · rw [hb0.1]

theorem sp_pack_eval (pv : Nat) (shf : Bool) (apid ssc dl : Nat)
    (hpv : pv < 8) (hapid : apid < 2048) (hssc : ssc < 16384) (hdl : dl < 65536) :
    SpacePacketHeader.pack
      { packet_version := pv, packet_type := 0, secondary_header_flag := shf,
        apid, sequence_flags := 3, ssc, data_length := dl } =
    .ok [pv * 32 + 0 * 16 + shf.toNat * 8 + apid / 256, apid % 256, 3 * 64 + ssc / 256, ssc % 256, dl / 256, dl % 256] := by
  unfold SpacePacketHeader.pack
  rw [if_pos ⟨hpv, by norm_num, hapid, by norm_num, hssc, hdl⟩]
  cases shf <;> norm_num

theorem sp_unpack_round (pv : Nat) (shf : Bool) (apid ssc dl : Nat) (rest : List Nat)
    (hpv : pv < 8) (hapid : apid < 2048) (hssc : ssc < 16384) (hdl : dl < 65536) :
    SpacePacketHeader.unpack
      ([pv * 32 + 0 * 16 + shf.toNat * 8 + apid / 256, apid % 256, 3 * 64 + ssc / 256, ssc % 256, dl / 256, dl % 256] ++ rest) =
    .ok { packet_version := pv, packet_type := 0, secondary_header_flag := shf,
          apid, sequence_flags := 3, ssc, data_length := dl } := by
  unfold SpacePacketHeader.unpack
  rw [if_neg (by simp)]
  simp only [List.cons_append, List.nil_append, List.getD_cons_zero, List.getD_cons_succ]
  rw [Except.ok.injEq, SpacePacketHeader.mk.injEq]
  have h8 : shf.toNat = 0 ∨ shf.toNat = 1 := by cases shf <;> simp
  refine ⟨by omega, by omega, ?_, by omega, by omega, by omega, by omega⟩
  cases shf with
  | true =>
      norm_num
      omega
  | false =>
      norm_num
      omega

set_option maxHeartbeats 1000000 in
theorem entity_unpack_round (pv : Nat) (shf : Bool)
    (apid ssc service subservice mc dest tr : Nat) (t : CdsShortTimestamp)
    (src : List Nat) (hi lo : Nat)
    (hpv : pv < 8) (hapid : apid < 2048) (hssc : ssc < 16384)
    (hmc : mc < 65536) (hdest : dest < 65536) (htr : tr < 16)
    (hp : t.pfield < 256) (hd : t.ccsds_days < 65536) (hm : t.ms_of_day < 4294967296)
    (hslen : src.length + 15 < 65536)
    (hcrc : crc16 ((([pv * 32 + 0 * 16 + shf.toNat * 8 + apid / 256, apid % 256, 3 * 64 + ssc / 256, ssc % 256, (src.length + 15) / 256, (src.length + 15) % 256] ++ ([32 ||| tr, service, subservice, (mc &&& 0xff00) >>> 8, mc &&& 0xff, (dest &&& 0xff00) >>> 8, dest &&& 0xff] ++ t.pack)) ++ src) ++ [hi, lo]) = 0) :
    PusTelemetry.unpack ((([pv * 32 + 0 * 16 + shf.toNat * 8 + apid / 256, apid % 256, 3 * 64 + ssc / 256, ssc % 256, (src.length + 15) / 256, (src.length + 15) % 256] ++ ([32 ||| tr, service, subservice, (mc &&& 0xff00) >>> 8, mc &&& 0xff, (dest &&& 0xff00) >>> 8, dest &&& 0xff] ++ t.pack)) ++ src) ++ [hi, lo]) PusVersion.PUS_C = .ok
      ⟨⟨pv, 0, shf, apid, 3, ssc, src.length + 15⟩,
       ⟨PusVersion.PUS_C, service, subservice, mc, dest, tr, t, some 2⟩,
       src, true, 0⟩ := by
  have htp : t.pack.length = 7 := rfl
  have hblen : (((([pv * 32 + 0 * 16 + shf.toNat * 8 + apid / 256, apid % 256, 3 * 64 + ssc / 256, ssc % 256, (src.length + 15) / 256, (src.length + 15) % 256] ++ ([32 ||| tr, service, subservice, (mc &&& 0xff00) >>> 8, mc &&& 0xff, (dest &&& 0xff00) >>> 8, dest &&& 0xff] ++ t.pack)) ++ src) ++ [hi, lo]) : List Nat).length = src.length + 22 := by
    simp [List.length_append, htp]
    omega
  unfold PusTelemetry.unpack
  split
  · rename_i hzero
    rw [hblen] at hzero
    omega
  · split
    · rename_i er heq
      rw [List.append_assoc, List.append_assoc,
        sp_unpack_round pv shf apid ssc (src.length + 15) _ hpv hapid hssc (by omega)] at heq
      exact absurd heq (by simp)
    · rename_i sp heq
      rw [List.append_assoc, List.append_assoc,
        sp_unpack_round pv shf apid ssc (src.length + 15) _ hpv hapid hssc (by omega)] at heq
      injection heq with heq
      subst heq
      split
      · rename_i hgt
        unfold get_total_space_packet_len_from_len_field at hgt
        simp only [hblen] at hgt
        omega
      · split
        · rename_i er heq2
          rw [show (((([pv * 32 + 0 * 16 + shf.toNat * 8 + apid / 256, apid % 256, 3 * 64 + ssc / 256, ssc % 256, (src.length + 15) / 256, (src.length + 15) % 256] ++ ([32 ||| tr, service, subservice, (mc &&& 0xff00) >>> 8, mc &&& 0xff, (dest &&& 0xff00) >>> 8, dest &&& 0xff] ++ t.pack)) ++ src) ++ [hi, lo]) : List Nat).drop SPACE_PACKET_HEADER_SIZE =
              ([32 ||| tr, service, subservice, (mc &&& 0xff00) >>> 8, mc &&& 0xff, (dest &&& 0xff00) >>> 8, dest &&& 0xff] ++ t.pack) ++ (src ++ [hi, lo]) from by
            simp [SPACE_PACKET_HEADER_SIZE, List.append_assoc]] at heq2
          rw [sec_unpack_round service subservice mc dest tr t _ hmc hdest htr hp hd hm] at heq2
          exact absurd heq2 (by simp)
        · rename_i sec heq2
          rw [show (((([pv * 32 + 0 * 16 + shf.toNat * 8 + apid / 256, apid % 256, 3 * 64 + ssc / 256, ssc % 256, (src.length + 15) / 256, (src.length + 15) % 256] ++ ([32 ||| tr, service, subservice, (mc &&& 0xff00) >>> 8, mc &&& 0xff, (dest &&& 0xff00) >>> 8, dest &&& 0xff] ++ t.pack)) ++ src) ++ [hi, lo]) : List Nat).drop SPACE_PACKET_HEADER_SIZE =
              ([32 ||| tr, service, subservice, (mc &&& 0xff00) >>> 8, mc &&& 0xff, (dest &&& 0xff00) >>> 8, dest &&& 0xff] ++ t.pack) ++ (src ++ [hi, lo]) from by
            simp [SPACE_PACKET_HEADER_SIZE, List.append_assoc]] at heq2
          rw [sec_unpack_round service subservice mc dest tr t _ hmc hdest htr hp hd hm] at heq2
          injection heq2 with heq2
          subst heq2
          split
          · rename_i hshort
            unfold PusTmSecondaryHeader.get_header_size SPACE_PACKET_HEADER_SIZE at hshort
            simp only [hblen, if_neg (by decide : ¬ PusVersion.PUS_C = PusVersion.PUS_A)]
              at hshort
            omega
          · rw [Except.ok.injEq, PusTelemetry.mk.injEq]
            refine ⟨rfl, rfl, ?_, ?_, rfl⟩
            · rw [show (((([pv * 32 + 0 * 16 + shf.toNat * 8 + apid / 256, apid % 256, 3 * 64 + ssc / 256, ssc % 256, (src.length + 15) / 256, (src.length + 15) % 256] ++ ([32 ||| tr, service, subservice, (mc &&& 0xff00) >>> 8, mc &&& 0xff, (dest &&& 0xff00) >>> 8, dest &&& 0xff] ++ t.pack)) ++ src) ++ [hi, lo]) : List Nat).length - 2 = ((([pv * 32 + 0 * 16 + shf.toNat * 8 + apid / 256, apid % 256, 3 * 64 + ssc / 256, ssc % 256, (src.length + 15) / 256, (src.length + 15) % 256] ++ ([32 ||| tr, service, subservice, (mc &&& 0xff00) >>> 8, mc &&& 0xff, (dest &&& 0xff00) >>> 8, dest &&& 0xff] ++ t.pack)) ++ src) : List Nat).length from by
                rw [hblen]
                simp [List.length_append, htp]
                omega]
              rw [List.take_left]
              rfl
            · have hgps : (⟨pv, 0, shf, apid, 3, ssc, src.length + 15⟩ :
                    SpacePacketHeader).get_packet_size = src.length + 22 := by
                show src.length + 15 + 7 = src.length + 22
                omega
              rw [hgps, hblen, if_neg (by omega)]
              rw [List.take_of_length_le (by omega)]
              simp only [decide_eq_true_eq]
              simpa using hcrc

set_option maxHeartbeats 1000000 in
/-- C1 (amended to PUS C): for every well-formed PUS C `PusTelemetry` entity
constructed from in-range fields, packing succeeds and unpacking the packed
bytes yields an entity equal to the original on every semantic field: all
space packet header fields, PUS version, service, subservice, message
counter, destination id, spacecraft time reference, timestamp and source
data.  (Field-constructed PUS A entities cannot be packed at all, see the
counterexample.) -/
theorem claim_C1_roundtrip_pus_c
    (service subservice ssc apid mc tr dest pv : Nat) (t : CdsShortTimestamp)
    (src : List Nat) (shf : Bool)
    (hs : service < 256) (hsub : subservice < 256)
    (hmc : mc ≤ 65535) (hdest : dest ≤ 65535) (htr : tr ≤ 15)
    (hpv : pv < 8) (hapid : apid < 2048) (hssc : ssc < 16384)
    (hsrc_len : src.length + 15 ≤ 65535) (hsrc : ∀ b ∈ src, b < 256)
    (hp : t.pfield < 256) (hd : t.ccsds_days < 65536) (hm : t.ms_of_day < 4294967296) :
    ∃ e out u,
      PusTelemetry.init service subservice t ssc src apid mc tr dest pv
        PusVersion.PUS_C shf = .ok e ∧
      e.pack = .ok out ∧
      PusTelemetry.unpack out.1 PusVersion.PUS_C = .ok u ∧
      u.space_packet_header = e.space_packet_header ∧
      u.secondary_packet_header.pus_version = e.secondary_packet_header.pus_version ∧
      u.secondary_packet_header.service_id = e.secondary_packet_header.service_id ∧
      u.secondary_packet_header.subservice_id = e.secondary_packet_header.subservice_id ∧
      u.secondary_packet_header.message_counter =
        e.secondary_packet_header.message_counter ∧
      u.secondary_packet_header.destination_id =
        e.secondary_packet_header.destination_id ∧
      u.secondary_packet_header.spacecraft_time_ref =
        e.secondary_packet_header.spacecraft_time_ref ∧
      u.secondary_packet_header.time = e.secondary_packet_header.time ∧
      u.source_data = e.source_data := by
  have hCA : PusVersion.PUS_C ≠ PusVersion.PUS_A := by decide
  have hcond : ¬ (PusVersion.PUS_C = PusVersion.PUS_A ∧ 255 < mc ∨ 65536 < mc) := by
    rintro (⟨h1, _⟩ | h2)
    · exact hCA h1
    · omega
  have hcond2 : ¬ (65536 < mc) := by omega
  have hinit : PusTelemetry.init service subservice t ssc src apid mc tr dest pv
      PusVersion.PUS_C shf = .ok
      { space_packet_header :=
          { packet_version := pv, packet_type := 0, secondary_header_flag := shf,
            apid, sequence_flags := 3, ssc, data_length := src.length + 15 }
        secondary_packet_header :=
          { pus_version := PusVersion.PUS_C, service_id := service,
            subservice_id := subservice, message_counter := mc,
            destination_id := dest, spacecraft_time_ref := tr, time := t,
            pus_version_number := none }
        source_data := src, valid := false, crc16_value := 0 } := by
    unfold PusTelemetry.init get_source_data_length PusTmSecondaryHeader.init
      PusVersion.resolve HEADER_SIZE_WITHOUT_TIME_PUS_C PUS_TIMESTAMP_SIZE
    norm_num [hCA, hcond, hcond2, Except.ok.injEq, PusTelemetry.mk.injEq,
      SpacePacketHeader.mk.injEq]
    omega
  have hall : src.all (fun b => decide (b < 256)) = true := by
    rw [List.all_eq_true]
    intro b hb
    exact decide_eq_true (hsrc b hb)
  have hpk : PusTelemetry.pack
      { space_packet_header :=
          { packet_version := pv, packet_type := 0, secondary_header_flag := shf,
            apid, sequence_flags := 3, ssc, data_length := src.length + 15 }
        secondary_packet_header :=
          { pus_version := PusVersion.PUS_C, service_id := service,
            subservice_id := subservice, message_counter := mc,
            destination_id := dest, spacecraft_time_ref := tr, time := t,
            pus_version_number := none }
        source_data := src, valid := false, crc16_value := 0 } =
      .ok ((([pv * 32 + 0 * 16 + shf.toNat * 8 + apid / 256, apid % 256, 3 * 64 + ssc / 256, ssc % 256, (src.length + 15) / 256, (src.length + 15) % 256] ++ ([32 ||| tr, service, subservice, (mc &&& 0xff00) >>> 8, mc &&& 0xff, (dest &&& 0xff00) >>> 8, dest &&& 0xff] ++ t.pack)) ++ src) ++
             [(crc16 (([pv * 32 + 0 * 16 + shf.toNat * 8 + apid / 256, apid % 256, 3 * 64 + ssc / 256, ssc % 256, (src.length + 15) / 256, (src.length + 15) % 256] ++ ([32 ||| tr, service, subservice, (mc &&& 0xff00) >>> 8, mc &&& 0xff, (dest &&& 0xff00) >>> 8, dest &&& 0xff] ++ t.pack)) ++ src) &&& 0xff00) >>> 8, crc16 (([pv * 32 + 0 * 16 + shf.toNat * 8 + apid / 256, apid % 256, 3 * 64 + ssc / 256, ssc % 256, (src.length + 15) / 256, (src.length + 15) % 256] ++ ([32 ||| tr, service, subservice, (mc &&& 0xff00) >>> 8, mc &&& 0xff, (dest &&& 0xff00) >>> 8, dest &&& 0xff] ++ t.pack)) ++ src) &&& 0xff],
           { space_packet_header :=
              { packet_version := pv, packet_type := 0, secondary_header_flag := shf,
                apid, sequence_flags := 3, ssc, data_length := src.length + 15 }
             secondary_packet_header :=
              { pus_version := PusVersion.PUS_C, service_id := service,
                subservice_id := subservice, message_counter := mc,
                destination_id := dest, spacecraft_time_ref := tr, time := t,
                pus_version_number := none }
             source_data := src, valid := false,
             crc16_value := crc16 (([pv * 32 + 0 * 16 + shf.toNat * 8 + apid / 256, apid % 256, 3 * 64 + ssc / 256, ssc % 256, (src.length + 15) / 256, (src.length + 15) % 256] ++ ([32 ||| tr, service, subservice, (mc &&& 0xff00) >>> 8, mc &&& 0xff, (dest &&& 0xff00) >>> 8, dest &&& 0xff] ++ t.pack)) ++ src) }) := by
    unfold PusTelemetry.pack
    rw [sp_pack_eval pv shf apid ssc (src.length + 15) hpv hapid hssc (by omega)]
    rw [sec_pack_c service subservice mc dest tr t hs hsub htr]
    simp [extend_bytes, hall]
  have hup := entity_unpack_round pv shf apid ssc service subservice mc dest tr t src
    ((crc16 (([pv * 32 + 0 * 16 + shf.toNat * 8 + apid / 256, apid % 256, 3 * 64 + ssc / 256, ssc % 256, (src.length + 15) / 256, (src.length + 15) % 256] ++ ([32 ||| tr, service, subservice, (mc &&& 0xff00) >>> 8, mc &&& 0xff, (dest &&& 0xff00) >>> 8, dest &&& 0xff] ++ t.pack)) ++ src) &&& 0xff00) >>> 8) (crc16 (([pv * 32 + 0 * 16 + shf.toNat * 8 + apid / 256, apid % 256, 3 * 64 + ssc / 256, ssc % 256, (src.length + 15) / 256, (src.length + 15) % 256] ++ ([32 ||| tr, service, subservice, (mc &&& 0xff00) >>> 8, mc &&& 0xff, (dest &&& 0xff00) >>> 8, dest &&& 0xff] ++ t.pack)) ++ src) &&& 0xff)
    hpv hapid hssc (by omega) (by omega) (by omega) hp hd hm (by omega)
    (crc16_append_closes (([pv * 32 + 0 * 16 + shf.toNat * 8 + apid / 256, apid % 256, 3 * 64 + ssc / 256, ssc % 256, (src.length + 15) / 256, (src.length + 15) % 256] ++ ([32 ||| tr, service, subservice, (mc &&& 0xff00) >>> 8, mc &&& 0xff, (dest &&& 0xff00) >>> 8, dest &&& 0xff] ++ t.pack)) ++ src))
  exact ⟨_, _, _, hinit, hpk, hup, rfl, rfl, rfl, rfl, rfl, rfl, rfl, rfl, rfl⟩

/-- C1 counterexample: a well-formed PUS A entity (valid PUS version, all
fields in range) cannot complete the round trip, because packing it already
fails: the secondary header pack reads the never-assigned
`pus_version_number` attribute.  This refutes the claim as stated, which
covers every valid PUS version. -/
theorem claim_C1_counterexample :
    PusTelemetry.init 17 2 t0 0 [] 0xEF 0 0 0 0 PusVersion.PUS_A true = .ok
      { space_packet_header :=
          { packet_version := 0, packet_type := 0, secondary_header_flag := true,
            apid := 0xEF, sequence_flags := 3, ssc := 0, data_length := 12 }
        secondary_packet_header :=
          { pus_version := PusVersion.PUS_A, service_id := 17, subservice_id := 2,
            message_counter := 0, destination_id := 0, spacecraft_time_ref := 0,
            time := t0, pus_version_number := none }
        source_data := [], valid := false, crc16_value := 0 } ∧
    PusTelemetry.pack
      { space_packet_header :=
          { packet_version := 0, packet_type := 0, secondary_header_flag := true,
            apid := 0xEF, sequence_flags := 3, ssc := 0, data_length := 12 }
        secondary_packet_header :=
          { pus_version := PusVersion.PUS_A, service_id := 17, subservice_id := 2,
            message_counter := 0, destination_id := 0, spacecraft_time_ref := 0,
            time := t0, pus_version_number := none }
        source_data := [], valid := false, crc16_value := 0 } =
      .error .attributeError := by
  constructor <;> rfl

set_option maxRecDepth 4000 in
/-- C1 witness: the PUS C round trip applied at a concrete entity. -/
theorem claim_C1_witness :
    ∃ e out u,
      PusTelemetry.init 17 2 ⟨64, 10, 500⟩ 22 [1, 2, 3] 239 5 1 2 0
        PusVersion.PUS_C true = .ok e ∧
      e.pack = .ok out ∧
      PusTelemetry.unpack out.1 PusVersion.PUS_C = .ok u ∧
      u.space_packet_header = e.space_packet_header ∧
      u.secondary_packet_header.pus_version = e.secondary_packet_header.pus_version ∧
      u.secondary_packet_header.service_id = e.secondary_packet_header.service_id ∧
      u.secondary_packet_header.subservice_id = e.secondary_packet_header.subservice_id ∧
      u.secondary_packet_header.message_counter =
        e.secondary_packet_header.message_counter ∧
      u.secondary_packet_header.destination_id =
        e.secondary_packet_header.destination_id ∧
      u.secondary_packet_header.spacecraft_time_ref =
        e.secondary_packet_header.spacecraft_time_ref ∧
      u.secondary_packet_header.time = e.secondary_packet_header.time ∧
      u.source_data = e.source_data :=
  claim_C1_roundtrip_pus_c 17 2 22 239 5 1 2 0 ⟨64, 10, 500⟩ [1, 2, 3] true
    (by decide) (by decide) (by decide) (by decide) (by decide) (by decide)
    (by decide) (by decide) (by decide) (by decide) (by decide) (by decide)
    (by decide)
